import Mathlib

/-!
Shallow embedding of `src/app.py` (a Streamlit single-page app): the
password gate (`check_password` / `password_entered`), the poem generator
(`get_poem`) and the orchestration in `main`.

Conventions of the embedding:
  * Python truthiness of an optional string (`if not x`) is `truthy`:
    `None` and `""` are falsy, every other string is truthy.
  * The process configuration is the pair of `os.getenv` (a map from
    variable name to optional string) and `st.secrets` (an optional map:
    `none` models a secret store whose access raises, which the source
    swallows with `except: pass`).
  * Streamlit session state is the record `Session` holding the two keys
    the source uses: `password_correct` and the `password` widget key.
  * The external chat-completion call is a function from the two message
    contents to `Except String String`: `.error e` models the client
    raising an exception rendered as the string `e`, `.ok t` models a
    successful completion whose message content is `t`.
  * `random.choice` is modelled by an arbitrary natural `r` reduced
    modulo the list length.
-/

namespace StillPoint

/-- Python truthiness of an optional string: `None` and `""` are falsy. -/
def truthy : Option String → Bool
  | none => false
  | some s => !s.isEmpty

/-- Keep an optional string only when it is truthy. -/
def truthyOpt (v : Option String) : Option String :=
  if truthy v then v else none

/-- Process configuration: environment plus the optional secret store.
`secrets = none` models a store whose access raises an exception. -/
structure Config where
  env : String → Option String
  secrets : Option (String → Option String)

/-- The env-then-secrets lookup pattern the source repeats for
`APP_PASSWORD`, `OPENAI_API_KEY` and `POEM_SYSTEM_PROMPT`:
take the environment value; if it is falsy and the secret store is
readable and contains the key, take the store's value instead; any
store failure leaves the environment value in place. -/
def lookupConfig (cfg : Config) (key : String) : Option String :=
  let v := cfg.env key
  if truthy v then v
  else
    match cfg.secrets with
    | some store =>
      match store key with
      | some sv => some sv
      | none => v
    | none => v

/-- The configured app password after the `if not correct_password`
check in `check_password`: `none` when unset or empty. -/
def resolvedPassword (cfg : Config) : Option String :=
  truthyOpt (lookupConfig cfg "APP_PASSWORD")

/-- The Streamlit session state keys the source touches. -/
structure Session where
  password_correct : Option Bool
  password : Option String
deriving DecidableEq, Repr

/-- What one run of `check_password` renders and returns. -/
structure GateOutput where
  ok : Bool
  warnings : List String
  errors : List String
  promptShown : Bool
deriving DecidableEq, Repr

/-- One run of `check_password` from `src/app.py`: resolve the
configured password; when it is unset/empty, warn and return `False`;
otherwise return `True` exactly when the session records a correct
password, rendering the input prompt (plus an error after a wrong
attempt) while it does not. -/
def check_password (cfg : Config) (sess : Session) : GateOutput :=
  match resolvedPassword cfg with
  | none =>
    { ok := false
      warnings := ["App is password protected but APP_PASSWORD is not set."]
      errors := []
      promptShown := false }
  | some _ =>
    match sess.password_correct with
    | none =>
      { ok := false, warnings := [], errors := [], promptShown := true }
    | some false =>
      { ok := false, warnings := [], errors := ["😕 Password incorrect"]
        promptShown := true }
    | some true =>
      { ok := true, warnings := [], errors := [], promptShown := false }

/-- The `password_entered` callback: compare the widget value with the
configured password; on a match record `password_correct = True` and
delete the widget key; on a mismatch record `password_correct = False`
(the widget key is left in place). -/
def password_entered (correct : String) (sess : Session) : Session :=
  match sess.password with
  | some p =>
    if p = correct then
      { password_correct := some true, password := none }
    else
      { sess with password_correct := some false }
  | none => sess

/-- The spec's `AccessState` read off a configuration and a session. -/
inductive AccessState where
  | Locked
  | Unlocked
  | Misconfigured
deriving DecidableEq, Repr

/-- The gate state: `Misconfigured` when no password is configured,
`Unlocked` when the session records a correct password, `Locked`
otherwise. -/
def gateState (cfg : Config) (sess : Session) : AccessState :=
  match resolvedPassword cfg with
  | none => .Misconfigured
  | some _ =>
    if sess.password_correct = some true then .Unlocked else .Locked

/-- Session-level events: a submit of the password widget (which fires
`password_entered` when the prompt is rendered) or a plain rerun of the
script, which does not touch the gate's session keys. -/
inductive Event where
  | submit (s : String)
  | rerun
deriving DecidableEq, Repr

/-- One step of the session under an event.  A submit only has an
effect while `check_password` renders the password prompt: the widget
writes the submitted value under the `password` key and the
`on_change` callback `password_entered` runs. -/
def step (cfg : Config) (sess : Session) (e : Event) : Session :=
  match e with
  | .rerun => sess
  | .submit s =>
    if (check_password cfg sess).promptShown then
      match resolvedPassword cfg with
      | some correct => password_entered correct { sess with password := some s }
      | none => sess
    else sess

/-- The fixed persona list from `get_poem`. -/
def poets : List String :=
  [ "Emily Dickinson"
  , "T.S. Eliot"
  , "Langston Hughes"
  , "Sylvia Plath"
  , "Seamus Heaney"
  , "Shel Silverstein"
  , "Lewis Carroll"
  , "Robert Frost"
  , "Ogden Nash"
  , "Pablo Neruda"
  , "Dr. Seuss" ]

/-- The selection `random.choice(poets) if poets else "Unknown Poet"`:
on a nonempty list, pick the element at the random draw reduced modulo
the length; on an empty list, fall back to the sentinel name. -/
def selectPoet (ps : List String) (r : Nat) : String :=
  match ps with
  | [] => "Unknown Poet"
  | _ :: _ => ps.getD (r % ps.length) "Unknown Poet"

/-- The built-in default system prompt template from `get_poem`. -/
def defaultTemplate : String :=
  "You are {poet}. Write a short poem based on the user's description of their day."

/-- Replace every occurrence of the six characters of the `poet`
replacement field by the poet's name, over character lists. -/
def substPoet (poet : List Char) : List Char → List Char
  | '\x7b' :: 'p' :: 'o' :: 'e' :: 't' :: '\x7d' :: rest =>
    poet ++ substPoet poet rest
  | c :: rest => c :: substPoet poet rest
  | [] => []

/-- Python `template.format(poet=name)` for templates whose only
replacement field is `{poet}`. -/
def formatPoet (template poet : String) : String :=
  String.mk (substPoet poet.data template.data)

/-- Python `day_description.strip()`: drop leading and trailing
whitespace. -/
def strip (s : String) : String :=
  String.mk (((s.data.dropWhile Char.isWhitespace).reverse.dropWhile
    Char.isWhitespace).reverse)

/-- The system instruction `get_poem` sends: the configured
`POEM_SYSTEM_PROMPT` (env, then secrets) when truthy, else the
built-in default template, with the selected poet substituted. -/
def systemInstruction (cfg : Config) (selected_poet : String) : String :=
  let system_prompt_template :=
    match truthyOpt (lookupConfig cfg "POEM_SYSTEM_PROMPT") with
    | some t => t
    | none => defaultTemplate
  formatPoet system_prompt_template selected_poet

/-- The external chat-completion call: given the system message content
and the user message content, either the returned message content or
the description of a raised exception. -/
def Provider : Type := String → String → Except String String

/-- What one call of `get_poem` returns and renders. -/
structure PoemOutput where
  poem : Option String
  poet : Option String
  errors : List String
  providerCalled : Bool
deriving DecidableEq, Repr

/-- The function `get_poem` from `src/app.py`: resolve `OPENAI_API_KEY` (env, then
secrets); without a key show an error and return `(None, None)` making
no external call; otherwise select a poet, build the system
instruction and issue the call, returning the content with the poet's
name on success, and showing an error and returning `(None, None)`
when the call raises. -/
def get_poem (cfg : Config) (provider : Provider) (r : Nat)
    (day_description : String) : PoemOutput :=
  match truthyOpt (lookupConfig cfg "OPENAI_API_KEY") with
  | none =>
    { poem := none, poet := none
      errors := ["OpenAI API Key not found. Please set it in a .env file or Streamlit secrets."]
      providerCalled := false }
  | some _ =>
    let selected_poet := selectPoet poets r
    match provider (systemInstruction cfg selected_poet) day_description with
    | .ok content =>
      { poem := some content, poet := some selected_poet
        errors := [], providerCalled := true }
    | .error e =>
      { poem := none, poet := none
        errors := ["Error generating poem: " ++ e]
        providerCalled := true }

/-- What the body of `main` past the gate does on one run. -/
inductive MainOutcome where
  | stopped
  | idle
  | info (msg : String)
  | rendered (poem poet : String)
  | silent
deriving DecidableEq, Repr

/-- One run of `main`, with the generator-invocation fact recorded. -/
structure MainOutput where
  outcome : MainOutcome
  generatorCalled : Bool
deriving DecidableEq, Repr

/-- The `main` flow of `src/app.py` for one script run: stop when
`check_password` fails; otherwise, on a submitted form, call
`get_poem` when the input is nonempty after stripping (rendering the
poem with attribution when both components are truthy) and show the
informational message otherwise. -/
def main (cfg : Config) (sess : Session) (provider : Provider) (r : Nat)
    (submitted : Bool) (day_input : String) : MainOutput :=
  if !(check_password cfg sess).ok then
    { outcome := .stopped, generatorCalled := false }
  else if submitted then
    if strip day_input ≠ "" then
      let res := get_poem cfg provider r day_input
      if truthy res.poem && truthy res.poet then
        { outcome := .rendered (res.poem.getD "") (res.poet.getD "")
          generatorCalled := true }
      else
        { outcome := .silent, generatorCalled := true }
    else
      { outcome := .info "Please share a few words first."
        generatorCalled := false }
  else
    { outcome := .idle, generatorCalled := false }

/-! Concrete fixtures used to instantiate the theorems. -/

/-- An environment given by an association list. -/
def envOf (l : List (String × String)) : String → Option String :=
  fun k => (l.find? (fun kv => kv.1 = k)).map (fun kv => kv.2)

/-- A configuration with only `APP_PASSWORD` set. -/
def cfgGate : Config := ⟨envOf [("APP_PASSWORD", "hunter2")], none⟩

/-- A configuration with nothing set and the secret store unavailable. -/
def cfgNone : Config := ⟨fun _ => none, none⟩

/-- A configuration with `APP_PASSWORD` and `OPENAI_API_KEY` set. -/
def cfgFull : Config :=
  ⟨envOf [("APP_PASSWORD", "hunter2"), ("OPENAI_API_KEY", "sk-test")], none⟩

/-- A configuration with an API key and a custom system prompt template. -/
def cfgGrumpy : Config :=
  ⟨envOf [("OPENAI_API_KEY", "sk-test"),
          ("POEM_SYSTEM_PROMPT", "You are {poet}, a grumpy critic.")], none⟩

/-- A provider whose call succeeds with a fixed completion. -/
def providerOk : Provider := fun _ _ => Except.ok "Rain taps soft on quiet glass"

/-- A provider whose call raises. -/
def providerFail : Provider := fun _ _ => Except.error "connection refused"

/-- A fresh session: no key set yet. -/
def sess0 : Session := ⟨none, none⟩

/-- A session that already recorded a correct password. -/
def sessAuth : Session := ⟨some true, none⟩

/-! Helper lemmas. -/

/-- An unlocked gate means the session records `password_correct = True`. -/
theorem unlocked_iff {cfg : Config} {sess : Session}
    (h : gateState cfg sess = .Unlocked) :
    sess.password_correct = some true ∧ ∃ p, resolvedPassword cfg = some p := by
  unfold gateState at h
  cases hr : resolvedPassword cfg with
  | none => rw [hr] at h; cases h
  | some p =>
    rw [hr] at h
    by_cases hc : sess.password_correct = some true
    · exact ⟨hc, p, rfl⟩
    · rw [if_neg hc] at h; cases h

/-- Once unlocked, a step leaves the session unchanged: the password
prompt is not rendered, so no callback can fire. -/
theorem step_of_unlocked {cfg : Config} {sess : Session}
    (h : gateState cfg sess = .Unlocked) (e : Event) :
    step cfg sess e = sess := by
  obtain ⟨hc, p, hp⟩ := unlocked_iff h
  cases e with
  | rerun => rfl
  | submit s =>
    unfold step check_password
    rw [hp, hc]
    simp

/-- Claim C1: a submit of the configured password unlocks the gate and
records `authenticated = true`, and once unlocked the gate stays
unlocked (with the flag still recorded) across every later sequence of
events, as long as the configured password stays set. -/
theorem gate_unlocks_and_persists (cfg : Config) (p : String)
    (hp : resolvedPassword cfg = some p) :
    (∀ sess : Session,
      gateState cfg (step cfg sess (.submit p)) = .Unlocked ∧
      (step cfg sess (.submit p)).password_correct = some true) ∧
    (∀ sess : Session, gateState cfg sess = .Unlocked →
      ∀ evs : List Event,
        gateState cfg (evs.foldl (step cfg) sess) = .Unlocked ∧
        (evs.foldl (step cfg) sess).password_correct = some true) := by
  constructor
  · intro sess
    have hgoal : (step cfg sess (.submit p)).password_correct = some true := by
      unfold step check_password
      rw [hp]
      cases hc : sess.password_correct with
      | none => simp [password_entered]
      | some b =>
        cases b with
        | false => simp [password_entered]
        | true => simp [hc]
    refine ⟨?_, hgoal⟩
    unfold gateState
    rw [hp, if_pos hgoal]
  · intro sess hu evs
    induction evs generalizing sess with
    | nil => exact ⟨hu, (unlocked_iff hu).1⟩
    | cons e evs ih =>
      have hstep := step_of_unlocked hu e
      simpa [List.foldl_cons, hstep] using ih sess hu

/-- Claim C1 witness: with `APP_PASSWORD = "hunter2"`, submitting
"hunter2" in a fresh session unlocks the gate, and the unlocked gate
survives a rerun and a further submit. -/
theorem gate_unlocks_and_persists_witness :
    (gateState cfgGate (step cfgGate sess0 (.submit "hunter2")) = .Unlocked ∧
      (step cfgGate sess0 (.submit "hunter2")).password_correct = some true) ∧
    gateState cfgGate
      ([Event.rerun, Event.submit "nope"].foldl (step cfgGate) sessAuth) = .Unlocked := by
  refine ⟨(gate_unlocks_and_persists cfgGate "hunter2" (by decide)).1 sess0, ?_⟩
  exact (((gate_unlocks_and_persists cfgGate "hunter2" (by decide)).2 sessAuth
    (by decide) [Event.rerun, Event.submit "nope"])).1

/-- Claim C2 counterexample: with `APP_PASSWORD = "hunter2"`,
submitting the non-matching string "wrong" in a fresh session leaves
the submitted string recorded in session state under the password
widget key — the claim that the submitted string is not retained after
the comparison is false (only a correct submission deletes the key). -/
theorem wrong_password_retained_cex :
    ("wrong" : String) ≠ "hunter2" ∧
    (step cfgGate sess0 (.submit "wrong")).password_correct = some false ∧
    ¬ (step cfgGate sess0 (.submit "wrong")).password = none ∧
    (step cfgGate sess0 (.submit "wrong")).password = some "wrong" := by
  decide

/-- Claim C2 (amended): submitting a string different from the
configured password while the gate is locked keeps the gate locked
(the check returns false and the incorrect-password error is
rendered), but the submitted string remains in session state under the
password widget key; it is deleted from session state only by a
correct submission. -/
theorem wrong_password_stays_locked (cfg : Config) (p s : String) (sess : Session)
    (hp : resolvedPassword cfg = some p) (hs : s ≠ p)
    (hl : gateState cfg sess = .Locked) :
    gateState cfg (step cfg sess (.submit s)) = .Locked ∧
    (step cfg sess (.submit s)).password_correct = some false ∧
    (step cfg sess (.submit s)).password = some s ∧
    (check_password cfg (step cfg sess (.submit s))).ok = false ∧
    (check_password cfg (step cfg sess (.submit s))).errors = ["😕 Password incorrect"] ∧
    (step cfg sess (.submit p)).password = none := by
  have hc : ¬ sess.password_correct = some true := by
    intro hc
    unfold gateState at hl
    rw [hp, if_pos hc] at hl
    cases hl
  have hstep : step cfg sess (.submit s) =
      { sess with password_correct := some false, password := some s } := by
    unfold step check_password
    rw [hp]
    cases hcc : sess.password_correct with
    | none => simp [password_entered, hs]
    | some b =>
      cases b with
      | false => simp [password_entered, hs]
      | true => exact absurd hcc hc
  have hstepp : (step cfg sess (.submit p)).password = none := by
    unfold step check_password
    rw [hp]
    cases hcc : sess.password_correct with
    | none => simp [password_entered]
    | some b =>
      cases b with
      | false => simp [password_entered]
      | true => exact absurd hcc hc
  rw [hstep]
  refine ⟨?_, rfl, rfl, ?_, ?_, hstepp⟩
  · unfold gateState
    rw [hp]
    simp
  · unfold check_password
    rw [hp]
  · unfold check_password
    rw [hp]

/-- Claim C2 (amended) witness: concrete instance with
`APP_PASSWORD = "hunter2"` and the wrong submission "wrong". -/
theorem wrong_password_stays_locked_witness :
    gateState cfgGate (step cfgGate sess0 (.submit "wrong")) = .Locked ∧
    (step cfgGate sess0 (.submit "wrong")).password = some "wrong" ∧
    (check_password cfgGate (step cfgGate sess0 (.submit "wrong"))).errors =
      ["😕 Password incorrect"] := by
  have h := wrong_password_stays_locked cfgGate "hunter2" "wrong" sess0
    (by decide) (by decide) (by decide)
  exact ⟨h.1, h.2.2.1, h.2.2.2.2.1⟩

/-- Claim C3: when the configured password is absent or empty, the
gate check returns false with the misconfiguration warning, the gate
state is `Misconfigured` for every session (whatever it previously
recorded), and it stays `Misconfigured` under every event (whatever is
submitted). -/
theorem misconfigured_always (cfg : Config) (sess : Session)
    (h : resolvedPassword cfg = none) :
    (check_password cfg sess).ok = false ∧
    (check_password cfg sess).warnings =
      ["App is password protected but APP_PASSWORD is not set."] ∧
    gateState cfg sess = .Misconfigured ∧
    ∀ e : Event, gateState cfg (step cfg sess e) = .Misconfigured := by
  have hcp : check_password cfg sess =
      { ok := false
        warnings := ["App is password protected but APP_PASSWORD is not set."]
        errors := []
        promptShown := false } := by
    unfold check_password
    rw [h]
  refine ⟨by rw [hcp], by rw [hcp], ?_, ?_⟩
  · unfold gateState; rw [h]
  · intro e
    cases e with
    | rerun => unfold gateState step; rw [h]
    | submit s =>
      unfold gateState step
      rw [hcp, h]

/-- Claim C3 witness: with no configuration present, even a session
that previously recorded `password_correct = True` is misconfigured,
and a submit does not change that. -/
theorem misconfigured_always_witness :
    (check_password cfgNone sessAuth).ok = false ∧
    (check_password cfgNone sessAuth).warnings =
      ["App is password protected but APP_PASSWORD is not set."] ∧
    gateState cfgNone sessAuth = .Misconfigured ∧
    gateState cfgNone (step cfgNone sessAuth (.submit "anything")) = .Misconfigured := by
  have h := misconfigured_always cfgNone sessAuth (by decide)
  exact ⟨h.1, h.2.1, h.2.2.1, h.2.2.2 (.submit "anything")⟩

/-- The gate check succeeds only when the session records a correct
password. -/
theorem check_password_ok {cfg : Config} {sess : Session}
    (h : (check_password cfg sess).ok = true) :
    sess.password_correct = some true := by
  unfold check_password at h
  cases hr : resolvedPassword cfg with
  | none => rw [hr] at h; cases h
  | some p =>
    rw [hr] at h
    cases hc : sess.password_correct with
    | none => rw [hc] at h; cases h
    | some b =>
      cases b with
      | false => rw [hc] at h; cases h
      | true => rfl

/-- Claim C4: the generator is invoked only when the gate check passed
on this run, which requires the session's authenticated flag; and
whenever the check fails, the run stops with the generator never
called. -/
theorem generator_requires_auth (cfg : Config) (sess : Session)
    (provider : Provider) (r : Nat) (submitted : Bool) (day_input : String) :
    ((main cfg sess provider r submitted day_input).generatorCalled = true →
      (check_password cfg sess).ok = true ∧ sess.password_correct = some true) ∧
    ((check_password cfg sess).ok = false →
      main cfg sess provider r submitted day_input =
        { outcome := .stopped, generatorCalled := false }) := by
  constructor
  · intro hgen
    cases hok : (check_password cfg sess).ok with
    | false =>
      unfold main at hgen
      rw [hok] at hgen
      cases hgen
    | true => exact ⟨rfl, check_password_ok hok⟩
  · intro hok
    unfold main
    rw [hok]
    simp

/-- Claim C4 witness: an authenticated session reaches the generator
and its flag is set; an unauthenticated gate (here: misconfigured)
stops the run without calling the generator. -/
theorem generator_requires_auth_witness :
    ((check_password cfgFull sessAuth).ok = true ∧
      sessAuth.password_correct = some true) ∧
    main cfgNone sess0 providerOk 0 true "hello" =
      { outcome := .stopped, generatorCalled := false } := by
  refine ⟨(generator_requires_auth cfgFull sessAuth providerOk 0 true "hello").1 ?_,
    (generator_requires_auth cfgNone sess0 providerOk 0 true "hello").2 ?_⟩
  · decide
  · decide

/-- Claim C5: when the gate passed and the submitted day description
trims to the empty string, the run surfaces the informational message
and never calls the generator; and on every run the generator is
called only for inputs that are nonempty after trimming. -/
theorem empty_input_short_circuits (cfg : Config) (sess : Session)
    (provider : Provider) (r : Nat) (day_input : String) :
    ((check_password cfg sess).ok = true → strip day_input = "" →
      main cfg sess provider r true day_input =
        { outcome := .info "Please share a few words first."
          generatorCalled := false }) ∧
    (∀ submitted : Bool,
      (main cfg sess provider r submitted day_input).generatorCalled = true →
      ¬ strip day_input = "") := by
  constructor
  · intro hok htrim
    unfold main
    rw [hok, htrim]
    simp
  · intro submitted hgen htrim
    unfold main at hgen
    rw [htrim] at hgen
    cases hok : (check_password cfg sess).ok with
    | false => rw [hok] at hgen; cases hgen
    | true =>
      rw [hok] at hgen
      cases submitted with
      | false => simp at hgen
      | true => simp at hgen

/-- Claim C5 witness: a whitespace-only submission behind an unlocked
gate yields the informational message without calling the generator,
and a run that did call the generator had a nonempty trimmed input. -/
theorem empty_input_short_circuits_witness :
    main cfgFull sessAuth providerOk 0 true "   " =
      { outcome := .info "Please share a few words first."
        generatorCalled := false } ∧
    ¬ strip "hello" = "" := by
  refine ⟨(empty_input_short_circuits cfgFull sessAuth providerOk 0 "   ").1
      (by decide) (by decide),
    (empty_input_short_circuits cfgFull sessAuth providerOk 0 "hello").2 true ?_⟩
  decide

/-- Claim C6: the system instruction substitutes the selected persona
for the placeholder in the configured template, falls back to the
built-in default template when none is configured, and on the template
"You are {poet}, a grumpy critic." with persona "Dr. Seuss" yields
"You are Dr. Seuss, a grumpy critic.". -/
theorem system_prompt_construction :
    (∀ cfg : Config, ∀ poet : String,
      truthyOpt (lookupConfig cfg "POEM_SYSTEM_PROMPT") = none →
      systemInstruction cfg poet = formatPoet defaultTemplate poet) ∧
    (∀ cfg : Config,
      truthyOpt (lookupConfig cfg "POEM_SYSTEM_PROMPT") =
        some "You are {poet}, a grumpy critic." →
      systemInstruction cfg "Dr. Seuss" = "You are Dr. Seuss, a grumpy critic.") ∧
    formatPoet defaultTemplate "Dr. Seuss" =
      "You are Dr. Seuss. Write a short poem based on the user's description of their day." := by
  refine ⟨?_, ?_, by decide⟩
  · intro cfg poet h
    unfold systemInstruction
    rw [h]
  · intro cfg h
    unfold systemInstruction
    rw [h]
    decide

/-- Claim C6 witness: with no template configured the default is used,
and with the grumpy-critic template configured the concrete
instruction is produced. -/
theorem system_prompt_construction_witness :
    systemInstruction cfgFull "Sylvia Plath" =
      formatPoet defaultTemplate "Sylvia Plath" ∧
    systemInstruction cfgGrumpy "Dr. Seuss" =
      "You are Dr. Seuss, a grumpy critic." :=
  ⟨system_prompt_construction.1 cfgFull "Sylvia Plath" (by decide),
   system_prompt_construction.2.1 cfgGrumpy (by decide)⟩

/-- Claim C7: when the provider call raises, `get_poem` returns the
`(None, None)` failure with the error banner carrying the (nonempty)
description derived from the underlying exception, instead of
propagating the exception. -/
theorem provider_failure_handled (cfg : Config) (provider : Provider)
    (r : Nat) (day k e : String)
    (hk : truthyOpt (lookupConfig cfg "OPENAI_API_KEY") = some k)
    (he : provider (systemInstruction cfg (selectPoet poets r)) day =
      .error e) :
    get_poem cfg provider r day =
      { poem := none, poet := none
        errors := ["Error generating poem: " ++ e]
        providerCalled := true } ∧
    ¬ ("Error generating poem: " ++ e) = "" := by
  constructor
  · unfold get_poem
    rw [hk]
    simp only []
    rw [he]
  · intro hcontra
    have hlen := congrArg String.length hcontra
    rw [String.length_append] at hlen
    have h1 : ("Error generating poem: " : String).length = 23 := rfl
    have h2 : ("" : String).length = 0 := rfl
    omega

/-- Claim C7 witness: a provider raising "connection refused" yields
the failure result with the derived nonempty error banner. -/
theorem provider_failure_handled_witness :
    get_poem cfgFull providerFail 0 "long day" =
      { poem := none, poet := none
        errors := ["Error generating poem: " ++ "connection refused"]
        providerCalled := true } ∧
    ¬ ("Error generating poem: " ++ "connection refused") = "" :=
  provider_failure_handled cfgFull providerFail 0 "long day" "sk-test"
    "connection refused" (by decide) rfl

/-- Claim C8: configuration lookup takes the environment value when it
is truthy and only then consults the secret store; an unavailable
store behaves exactly like a store lacking the key; and when no API
key resolves, `get_poem` shows the key-not-found error (a nonempty,
user-visible message) and returns the failure pair without calling
the provider. -/
theorem api_key_resolution (cfg : Config) (provider : Provider) (r : Nat)
    (day : String) (env store : String → Option String) (key v : String) :
    (truthy (env key) = true →
      ∀ sec : Option (String → Option String),
        lookupConfig ⟨env, sec⟩ key = env key) ∧
    (truthy (env key) = false → store key = some v →
      lookupConfig ⟨env, some store⟩ key = some v) ∧
    lookupConfig ⟨env, none⟩ key = lookupConfig ⟨env, some fun _ => none⟩ key ∧
    (truthyOpt (lookupConfig cfg "OPENAI_API_KEY") = none →
      get_poem cfg provider r day =
        { poem := none, poet := none
          errors := ["OpenAI API Key not found. Please set it in a .env file or Streamlit secrets."]
          providerCalled := false } ∧
      ¬ ("OpenAI API Key not found. Please set it in a .env file or Streamlit secrets." : String) = "") := by
  refine ⟨?_, ?_, ?_, ?_⟩
  · intro h sec
    unfold lookupConfig
    simp [h]
  · intro h hv
    unfold lookupConfig
    simp [h, hv]
  · unfold lookupConfig
    cases h : truthy (env key) <;> simp [h]
  · intro h
    constructor
    · unfold get_poem
      rw [h]
    · decide

/-- Claim C8 witness: env-first resolution, store fallback, the
unavailable-store/absent-key identification, and the no-key failure
path, each at concrete inputs. -/
theorem api_key_resolution_witness :
    lookupConfig ⟨cfgFull.env, none⟩ "OPENAI_API_KEY" =
      cfgFull.env "OPENAI_API_KEY" ∧
    lookupConfig ⟨cfgNone.env, some (envOf [("OPENAI_API_KEY", "sk-secret")])⟩
      "OPENAI_API_KEY" = some "sk-secret" ∧
    (get_poem cfgGate providerOk 0 "hi" =
      { poem := none, poet := none
        errors := ["OpenAI API Key not found. Please set it in a .env file or Streamlit secrets."]
        providerCalled := false } ∧
      ¬ ("OpenAI API Key not found. Please set it in a .env file or Streamlit secrets." : String) = "") := by
  refine ⟨(api_key_resolution cfgGate providerOk 0 "hi" cfgFull.env
      (envOf [("OPENAI_API_KEY", "sk-secret")]) "OPENAI_API_KEY" "sk-secret").1
      (by decide) none,
    (api_key_resolution cfgGate providerOk 0 "hi" cfgNone.env
      (envOf [("OPENAI_API_KEY", "sk-secret")]) "OPENAI_API_KEY" "sk-secret").2.1
      (by decide) (by decide),
    (api_key_resolution cfgGate providerOk 0 "hi" cfgNone.env
      (envOf [("OPENAI_API_KEY", "sk-secret")]) "OPENAI_API_KEY" "sk-secret").2.2.2
      (by decide)⟩

/-- Claim C9: the fixed persona list has 11 named poets; every
selection is a member of the list; selection from an empty list yields
the sentinel "Unknown Poet"; and under a uniform random draw each
poet is selected by exactly one residue, so selection is uniform. -/
theorem persona_selection (r : Nat) (p : String) :
    poets.length = 11 ∧
    selectPoet poets r ∈ poets ∧
    selectPoet [] r = "Unknown Poet" ∧
    (p ∈ poets →
      ((Finset.range poets.length).filter
        fun i => selectPoet poets i = p).card = 1) := by
  have hsel : selectPoet poets r = poets.getD (r % 11) "Unknown Poet" := rfl
  have hlt : r % 11 < 11 := Nat.mod_lt _ (by omega)
  have hmem : ∀ m, m < 11 → poets.getD m "Unknown Poet" ∈ poets := by decide
  refine ⟨rfl, ?_, rfl, ?_⟩
  · rw [hsel]
    exact hmem _ hlt
  · intro hp
    have huni : ∀ q ∈ poets,
        ((Finset.range poets.length).filter
          fun i => selectPoet poets i = q).card = 1 := by decide
    exact huni p hp

/-- Claim C9 witness: instantiated at draw 987654321 and the member
"Dr. Seuss". -/
theorem persona_selection_witness :
    selectPoet poets 987654321 ∈ poets ∧
    ("Dr. Seuss" ∈ poets ∧
      ((Finset.range poets.length).filter
        fun i => selectPoet poets i = "Dr. Seuss").card = 1) :=
  ⟨(persona_selection 987654321 "Dr. Seuss").2.1,
   by decide,
   (persona_selection 987654321 "Dr. Seuss").2.2.2 (by decide)⟩

/-- Claim C10: the pair `get_poem` returns is all-or-nothing — either
both the poem content and the poet name are present, or both are
`None`; a mixed pair is never returned. -/
theorem result_all_or_nothing (cfg : Config) (provider : Provider)
    (r : Nat) (day : String) :
    ((get_poem cfg provider r day).poem.isSome = true ∧
      (get_poem cfg provider r day).poet.isSome = true) ∨
    ((get_poem cfg provider r day).poem = none ∧
      (get_poem cfg provider r day).poet = none) := by
  cases hk : truthyOpt (lookupConfig cfg "OPENAI_API_KEY") with
  | none =>
    right
    unfold get_poem
    rw [hk]
    exact ⟨rfl, rfl⟩
  | some k =>
    cases hp : provider (systemInstruction cfg (selectPoet poets r)) day with
    | ok content =>
      left
      unfold get_poem
      rw [hk]
      simp only []
      rw [hp]
      exact ⟨rfl, rfl⟩
    | error e =>
      right
      unfold get_poem
      rw [hk]
      simp only []
      rw [hp]
      exact ⟨rfl, rfl⟩

end StillPoint
